import Mathlib

/-!
Shallow embedding of `named-semaphore` (`src/lib.rs`), a Rust wrapper around
POSIX named semaphores (`sem_open`, `sem_wait`, `sem_trywait`, `sem_post`,
`sem_getvalue`, `sem_close`, `sem_unlink`).

The OS semaphore subsystem is an external collaborator of the repository; it
is modelled here by its documented POSIX/Linux contract: the count of one
semaphore object is a `Nat`, the OS namespace is an association list from
names (byte lists) to counts, and every libc call returns a C result code
plus an `errno` and emits one trace event recording that the call was made.
The Rust-side code (`capture_io_error`, the methods of `Semaphore` and
`SemaphoreGuard`, and the `Drop` impls) is translated from the source.
-/

set_option autoImplicit false
set_option linter.unusedVariables false

namespace NamedSemaphore

/-- Linux errno values used by the POSIX semaphore calls. -/
abbrev Errno := Nat

def ENOENT : Errno := 2

def EINTR : Errno := 4

def EAGAIN : Errno := 11

def EEXIST : Errno := 17

def EINVAL : Errno := 22

def EOVERFLOW : Errno := 75

/-- Linux `O_CREAT` flag (octal 100). -/
def O_CREAT : Nat := 0o100

/-- Linux `O_EXCL` flag (octal 200). -/
def O_EXCL : Nat := 0o200

/-- Linux `SEM_VALUE_MAX` (`INT_MAX`). -/
def SEM_VALUE_MAX : Nat := 2147483647

/-- The machine-classifiable kinds of `std::io::Error` relevant here. -/
inductive ErrorKind where
  | invalidInput
  | wouldBlock
  | alreadyExists
  | notFound
  | interrupted
  | other (e : Errno)
  deriving DecidableEq, Repr

/-- Rust std's classification of an errno into an `io::ErrorKind`
(`decode_error_kind` on Linux, restricted to the codes that can arise
from the semaphore calls). -/
def errnoKind (e : Errno) : ErrorKind :=
  if e = EAGAIN then ErrorKind.wouldBlock
  else if e = EEXIST then ErrorKind.alreadyExists
  else if e = ENOENT then ErrorKind.notFound
  else if e = EINTR then ErrorKind.interrupted
  else if e = EINVAL then ErrorKind.invalidInput
  else ErrorKind.other e

/-- Argument record of one `sem_open` call as issued to the OS. -/
structure SemOpenCall where
  name : List UInt8
  oflag : Nat
  mode : Nat
  cap : Nat
  deriving DecidableEq, Repr

/-- Trace events: one per libc call actually issued. -/
inductive Ev where
  | semOpen (c : SemOpenCall)
  | semGetvalue
  | semWait
  | semTrywait
  | semPost
  | semClose
  | semUnlink (name : List UInt8)
  deriving DecidableEq, Repr

/-- Result of one libc call: C return value, errno (meaningful when the
return value signals failure), resulting abstract state, and the emitted
trace. -/
structure OsRet (σ : Type) where
  ret : Int
  errno : Errno
  state : σ
  ev : List Ev
  deriving Repr

/-- POSIX model: `sem_trywait` decrements a positive count and fails with
`EAGAIN`, leaving the count unchanged, when the count is zero. -/
def sem_trywait (c : Nat) : OsRet Nat :=
  if c = 0 then ⟨-1, EAGAIN, c, [Ev.semTrywait]⟩
  else ⟨0, 0, c - 1, [Ev.semTrywait]⟩

/-- POSIX model: `sem_post` increments the count, failing with `EOVERFLOW`
(count unchanged) if the count is already `SEM_VALUE_MAX`. -/
def sem_post (c : Nat) : OsRet Nat :=
  if SEM_VALUE_MAX ≤ c then ⟨-1, EOVERFLOW, c, [Ev.semPost]⟩
  else ⟨0, 0, c + 1, [Ev.semPost]⟩

/-- POSIX model: `sem_wait` decrements a positive count; with a zero count
and no other process posting, the call never returns (`none`). The flag
`intr` selects the OS nondeterminism of delivery of a signal, which makes
the call fail with `EINTR` and the count unchanged. -/
def sem_wait (c : Nat) (intr : Bool) : Option (OsRet Nat) :=
  if intr then some ⟨-1, EINTR, c, [Ev.semWait]⟩
  else if c = 0 then none
  else some ⟨0, 0, c - 1, [Ev.semWait]⟩

/-- POSIX model: `sem_getvalue` writes the count into `sval` and returns 0;
the OS outcome (reported value, or a failure errno) is a parameter since the
reported value may be a negative sentinel on some platforms. -/
def sem_getvalue (osOutcome : Except Errno Int) : OsRet Int :=
  match osOutcome with
  | Except.ok sval => ⟨0, 0, sval, [Ev.semGetvalue]⟩
  | Except.error e => ⟨-1, e, 0, [Ev.semGetvalue]⟩

/-- POSIX model: `sem_close`; whether it fails (and with which errno) is an
OS-side parameter. -/
def sem_close (fail : Option Errno) : OsRet Unit :=
  match fail with
  | none => ⟨0, 0, (), [Ev.semClose]⟩
  | some e => ⟨-1, e, (), [Ev.semClose]⟩

/-- The OS namespace of named semaphores: name bytes to current count. -/
abbrev OsNs := List (List UInt8 × Nat)

/-- POSIX model: `sem_open`. With the name present, fails `EEXIST` iff both
`O_CREAT` and `O_EXCL` are set, else opens the existing object (mode and
capacity ignored). With the name absent, creates it iff `O_CREAT` is set
(failing `EINVAL` for a capacity above `SEM_VALUE_MAX`), else fails
`ENOENT`. Returns the handle as the name key. -/
def sem_open (os : OsNs) (name : List UInt8) (oflag : Nat) (mode : Nat)
    (cap : Nat) : OsNs × Except Errno (List UInt8) × List Ev :=
  let ev := [Ev.semOpen ⟨name, oflag, mode, cap⟩]
  match os.lookup name with
  | some _ =>
    if oflag &&& O_CREAT ≠ 0 ∧ oflag &&& O_EXCL ≠ 0 then
      (os, Except.error EEXIST, ev)
    else (os, Except.ok name, ev)
  | none =>
    if oflag &&& O_CREAT = 0 then (os, Except.error ENOENT, ev)
    else if SEM_VALUE_MAX < cap then (os, Except.error EINVAL, ev)
    else ((name, cap) :: os, Except.ok name, ev)

/-- `CString::new` from Rust std: fails (a `NulError`, converted by `?` into
an `io::Error` of kind `InvalidInput`) iff the bytes contain an embedded
null byte; no OS call is involved. -/
def cstring_new (name : List UInt8) : Except ErrorKind (List UInt8) :=
  if (0 : UInt8) ∈ name then Except.error ErrorKind.invalidInput
  else Except.ok name

/-- `fn capture_io_error(f: impl FnOnce() -> c_int) -> Result<()>`: a
nonzero return value becomes `Err(Error::last_os_error())`. -/
def capture_io_error (ret : Int) (errno : Errno) : Except ErrorKind Unit :=
  if ret ≠ 0 then Except.error (errnoKind errno) else Except.ok ()

/-- `pub struct Semaphore { name: CString, sem: *mut libc::sem_t }`; the
handle is modelled by the name key it was opened under. -/
structure Semaphore where
  name : List UInt8
  sem : List UInt8
  deriving DecidableEq, Repr

/-- `fn open_with_oflag(name, capacity, oflag)`: converts the name with
`CString::new` (the `?` returns before any OS call on failure), then issues
`sem_open(name, oflag, 0o644, capacity)` and wraps `SEM_FAILED` into
`Error::last_os_error()`. -/
def Semaphore.open_with_oflag (os : OsNs) (name : List UInt8) (capacity : Nat)
    (oflag : Nat) : OsNs × Except ErrorKind Semaphore × List Ev :=
  match cstring_new name with
  | Except.error e => (os, Except.error e, [])
  | Except.ok cname =>
    match sem_open os cname oflag 0o644 capacity with
    | (os', Except.error errno, ev) => (os', Except.error (errnoKind errno), ev)
    | (os', Except.ok h, ev) => (os', Except.ok ⟨cname, h⟩, ev)

/-- `pub fn open(name, capacity)`: `open_with_oflag(name, capacity, O_CREAT)`.
(`open` is a Lean keyword, hence the underscore.) -/
def Semaphore.open_ (os : OsNs) (name : List UInt8) (capacity : Nat) :
    OsNs × Except ErrorKind Semaphore × List Ev :=
  Semaphore.open_with_oflag os name capacity O_CREAT

/-- `pub fn create(name, capacity)`:
`open_with_oflag(name, capacity, O_CREAT | O_EXCL)`. -/
def Semaphore.create (os : OsNs) (name : List UInt8) (capacity : Nat) :
    OsNs × Except ErrorKind Semaphore × List Ev :=
  Semaphore.open_with_oflag os name capacity (O_CREAT ||| O_EXCL)

/-- `pub fn value(&self) -> Result<usize>`: `sem_getvalue` through
`capture_io_error`, then `if *sval < 0 { *sval = 0; } Ok(*sval as usize)`. -/
def Semaphore.value (s : Semaphore) (osOutcome : Except Errno Int) :
    Except ErrorKind Nat :=
  let r := sem_getvalue osOutcome
  match capture_io_error r.ret r.errno with
  | Except.error e => Except.error e
  | Except.ok _ =>
    let sval := if r.state < 0 then 0 else r.state
    Except.ok sval.toNat

/-- `pub fn acquire(&self) -> Result<()>`: `capture_io_error(sem_wait)`;
`none` models the call never returning (blocked forever). -/
def Semaphore.acquire (s : Semaphore) (c : Nat) (intr : Bool) :
    Option (Nat × Except ErrorKind Unit × List Ev) :=
  (sem_wait c intr).map fun r => (r.state, capture_io_error r.ret r.errno, r.ev)

/-- `pub fn try_acquire(&self) -> Result<()>`: `capture_io_error(sem_trywait)`. -/
def Semaphore.try_acquire (s : Semaphore) (c : Nat) :
    Nat × Except ErrorKind Unit × List Ev :=
  let r := sem_trywait c
  (r.state, capture_io_error r.ret r.errno, r.ev)

/-- `pub fn release(&self) -> Result<()>`: `capture_io_error(sem_post)`. -/
def Semaphore.release (s : Semaphore) (c : Nat) :
    Nat × Except ErrorKind Unit × List Ev :=
  let r := sem_post c
  (r.state, capture_io_error r.ret r.errno, r.ev)

/-- `pub struct SemaphoreGuard<'a> { sem: &'a Semaphore }`. -/
structure SemaphoreGuard where
  sem : Semaphore
  deriving DecidableEq, Repr

/-- `unsafe fn new(sem: &'a Semaphore) -> SemaphoreGuard<'a>`. -/
def SemaphoreGuard.new (s : Semaphore) : SemaphoreGuard := ⟨s⟩

/-- `pub fn access(&self) -> Result<SemaphoreGuard>`:
`self.acquire()?; Ok(SemaphoreGuard::new(self))`. -/
def Semaphore.access (s : Semaphore) (c : Nat) (intr : Bool) :
    Option (Nat × Except ErrorKind SemaphoreGuard × List Ev) :=
  (s.acquire c intr).map fun r =>
    match r with
    | (c', Except.error e, ev) => (c', Except.error e, ev)
    | (c', Except.ok _, ev) => (c', Except.ok (SemaphoreGuard.new s), ev)

/-- `pub fn try_access(&self) -> Result<SemaphoreGuard>`:
`self.try_acquire()?; Ok(SemaphoreGuard::new(self))`. -/
def Semaphore.try_access (s : Semaphore) (c : Nat) :
    Nat × Except ErrorKind SemaphoreGuard × List Ev :=
  match s.try_acquire c with
  | (c', Except.error e, ev) => (c', Except.error e, ev)
  | (c', Except.ok _, ev) => (c', Except.ok (SemaphoreGuard.new s), ev)

/-- `impl Drop for SemaphoreGuard { fn drop(&mut self) { let _ =
self.sem.release(); } }`: one release, result discarded. -/
def SemaphoreGuard.drop (g : SemaphoreGuard) (c : Nat) : Nat × List Ev :=
  let (c', r, ev) := g.sem.release c
  let _ := r
  (c', ev)

/-- `impl Drop for Semaphore { fn drop(&mut self) { let _ =
capture_io_error(|| sem_close(self.sem)); } }`. -/
def Semaphore.drop (s : Semaphore) (fail : Option Errno) : Unit × List Ev :=
  let r := sem_close fail
  let _ := capture_io_error r.ret r.errno
  ((), r.ev)

/-- The body of `pub fn close(self) -> Result<()>`:
`capture_io_error(|| sem_close(self.sem))`. -/
def Semaphore.close_body (s : Semaphore) (fail : Option Errno) :
    Except ErrorKind Unit × List Ev :=
  let r := sem_close fail
  (capture_io_error r.ret r.errno, r.ev)

/-- The complete observable effect of a call to `close(self)` under Rust
semantics: the method body runs `sem_close` once; then, because `Semaphore`
implements `Drop` and `close` consumes `self` by value without
`mem::forget`/`ManuallyDrop`, the compiler drops `self` when the method
returns, invoking `Drop::drop`, which issues `sem_close` on the same handle
a second time. `fail1`/`fail2` are the OS outcomes of the two calls. -/
def Semaphore.close_full (s : Semaphore) (fail1 fail2 : Option Errno) :
    Except ErrorKind Unit × List Ev :=
  let (r, ev1) := s.close_body fail1
  let (_, ev2) := s.drop fail2
  (r, ev1 ++ ev2)

/-- `pub fn unlink(&self) -> Result<()>`: `sem_unlink(self.name)` through
`capture_io_error`; removes the name from the namespace. -/
def Semaphore.unlink (s : Semaphore) (os : OsNs) :
    OsNs × Except ErrorKind Unit × List Ev :=
  match os.lookup s.name with
  | some _ => (os.filter (fun p => p.1 ≠ s.name), Except.ok (), [Ev.semUnlink s.name])
  | none => (os, Except.error (errnoKind ENOENT), [Ev.semUnlink s.name])

/-! ## Characterization lemmas -/

/-- A successful `access` happens exactly when the wait was not interrupted
and the count was positive; it decrements the count by one, returns the
guard over `s`, and its trace is the single `sem_wait` call. -/
theorem access_ok_iff (s : Semaphore) (c : Nat) (intr : Bool) (c' : Nat)
    (g : SemaphoreGuard) (ev : List Ev) :
    s.access c intr = some (c', Except.ok g, ev) ↔
      intr = false ∧ c ≠ 0 ∧ c' = c - 1 ∧ g = SemaphoreGuard.new s ∧
        ev = [Ev.semWait] := by
  unfold Semaphore.access Semaphore.acquire sem_wait capture_io_error
  by_cases hi : intr <;> by_cases hc : c = 0 <;>
    simp [hi, hc, eq_comm, and_comm]

/-- A successful `try_access` happens exactly when the count was positive;
it decrements the count by one, returns the guard over `s`, and its trace
is the single `sem_trywait` call. -/
theorem try_access_ok_iff (s : Semaphore) (c : Nat) (c' : Nat)
    (g : SemaphoreGuard) (ev : List Ev) :
    s.try_access c = (c', Except.ok g, ev) ↔
      c ≠ 0 ∧ c' = c - 1 ∧ g = SemaphoreGuard.new s ∧ ev = [Ev.semTrywait] := by
  unfold Semaphore.try_access Semaphore.try_acquire sem_trywait capture_io_error
  by_cases hc : c = 0 <;> simp [hc, eq_comm, and_comm]

/-- `sem_open` always records exactly the one call it was issued with. -/
theorem sem_open_trace (os : OsNs) (name : List UInt8) (oflag mode cap : Nat) :
    (sem_open os name oflag mode cap).2.2
      = [Ev.semOpen ⟨name, oflag, mode, cap⟩] := by
  unfold sem_open
  split <;> split_ifs <;> rfl

/-- Every `sem_open` call issued by `open_with_oflag` carries mode `0o644`
and the caller's name, oflag and capacity; when the name check fails, no
call is issued at all. -/
theorem open_with_oflag_trace (os : OsNs) (name : List UInt8)
    (capacity oflag : Nat) :
    (Semaphore.open_with_oflag os name capacity oflag).2.2 = [] ∨
    (Semaphore.open_with_oflag os name capacity oflag).2.2
      = [Ev.semOpen ⟨name, oflag, 0o644, capacity⟩] := by
  unfold Semaphore.open_with_oflag cstring_new
  by_cases h0 : (0 : UInt8) ∈ name
  · left
    simp [h0]
  · right
    simp only [if_neg h0]
    have ht := sem_open_trace os name oflag 0o644 capacity
    rcases hs : sem_open os name oflag 0o644 capacity with ⟨os', r, ev⟩
    rw [hs] at ht
    cases r <;> simpa using ht

/-! ## Theorems -/

/-- C3: on a semaphore whose current count is zero, `try_acquire` (and hence
`try_access`) fails with an error of kind `WouldBlock`, leaves the count
unchanged at 0, and produces no guard (the result is the error, not a
guard). -/
theorem try_acquire_zero_would_block (s : Semaphore) :
    s.try_acquire 0 = (0, Except.error ErrorKind.wouldBlock, [Ev.semTrywait]) ∧
    s.try_access 0 = (0, Except.error ErrorKind.wouldBlock, [Ev.semTrywait]) :=
  ⟨rfl, rfl⟩

/-- C7: `value` returns the OS-reported count as a non-negative `Nat`: a
negative sentinel report is normalized to exactly 0, and a non-negative
report is returned unchanged. -/
theorem value_normalizes_negative_sentinel (s : Semaphore) (sval : Int) :
    (sval < 0 → s.value (Except.ok sval) = Except.ok 0) ∧
    (0 ≤ sval → s.value (Except.ok sval) = Except.ok sval.toNat) := by
  constructor
  · intro h
    simp [Semaphore.value, sem_getvalue, capture_io_error, h]
  · intro h
    simp [Semaphore.value, sem_getvalue, capture_io_error, not_lt.mpr h]

/-- Witness for C7 at the concrete reports −3 and 5. -/
theorem value_normalizes_negative_sentinel_witness :
    ((-3 : Int) < 0 ∧
      Semaphore.value ⟨[47], [47]⟩ (Except.ok (-3)) = Except.ok 0) ∧
    ((0 : Int) ≤ 5 ∧
      Semaphore.value ⟨[47], [47]⟩ (Except.ok 5) = Except.ok 5) :=
  ⟨⟨by decide, (value_normalizes_negative_sentinel ⟨[47], [47]⟩ (-3)).1 (by decide)⟩,
   ⟨by decide, (value_normalizes_negative_sentinel ⟨[47], [47]⟩ 5).2 (by decide)⟩⟩

/-- C9: dropping a `Semaphore` without an explicit `close` still issues
exactly one OS `sem_close` call, and any error from that implicit close is
discarded: for every OS outcome `fail` (success or any failing errno) the
drop completes normally with the same unit result and the single close
event. -/
theorem drop_issues_close_discards_error (s : Semaphore) (fail : Option Errno) :
    s.drop fail = ((), [Ev.semClose]) := by
  cases fail <;> rfl

/-- C4: for every name containing an embedded null byte and every initial
count, both `open` and `create` fail with `InvalidInput`, the OS namespace
is untouched, and the empty trace shows the failure is detected before any
OS call is made. -/
theorem null_name_invalid_input_before_os (os : OsNs) (name : List UInt8)
    (capacity : Nat) (h : (0 : UInt8) ∈ name) :
    Semaphore.open_ os name capacity
      = (os, Except.error ErrorKind.invalidInput, []) ∧
    Semaphore.create os name capacity
      = (os, Except.error ErrorKind.invalidInput, []) := by
  constructor <;>
    simp [Semaphore.open_, Semaphore.create, Semaphore.open_with_oflag,
      cstring_new, h]

/-- Witness for C4 at the concrete name `[0]`. -/
theorem null_name_invalid_input_before_os_witness :
    (0 : UInt8) ∈ [(0 : UInt8)] ∧
    Semaphore.open_ [] [0] 7 = ([], Except.error ErrorKind.invalidInput, []) ∧
    Semaphore.create [] [0] 7 = ([], Except.error ErrorKind.invalidInput, []) :=
  ⟨by decide,
   (null_name_invalid_input_before_os [] [0] 7 (by decide)).1,
   (null_name_invalid_input_before_os [] [0] 7 (by decide)).2⟩

/-- C6 does not hold of the code: an explicit `close()` call leads to two
`sem_close` calls on the same handle, one from the method body and one from
the implicit drop of the consumed `self` (the `Drop` impl is not disarmed
by `mem::forget`), contradicting "never both / no further close of the
same handle is issued after `close()`". -/
theorem close_issues_two_sem_close :
    ((Semaphore.close_full ⟨[47], [47]⟩ none none).2).count Ev.semClose = 2 := by
  decide

/-- C1: for every count within the OS range and every successful `access`
(or `try_access`), letting the returned guard go out of scope (its drop
runs `release`) restores the count to its pre-acquire value. -/
theorem access_release_round_trip (s : Semaphore) (c : Nat)
    (hmax : c ≤ SEM_VALUE_MAX) :
    (∀ intr c' g ev, s.access c intr = some (c', Except.ok g, ev) →
      (g.drop c').1 = c) ∧
    (∀ c' g ev, s.try_access c = (c', Except.ok g, ev) →
      (g.drop c').1 = c) := by
  have hdrop : ∀ g : SemaphoreGuard, c ≠ 0 → (g.drop (c - 1)).1 = c := by
    intro g hc
    have hlt : ¬ SEM_VALUE_MAX ≤ c - 1 := by
      unfold SEM_VALUE_MAX at *
      omega
    unfold SemaphoreGuard.drop Semaphore.release sem_post capture_io_error
    simp [hlt]
    omega
  constructor
  · intro intr c' g ev h
    rw [access_ok_iff] at h
    obtain ⟨-, hc, hc', -, -⟩ := h
    rw [hc']
    exact hdrop g hc
  · intro c' g ev h
    rw [try_access_ok_iff] at h
    obtain ⟨hc, hc', -, -⟩ := h
    rw [hc']
    exact hdrop g hc

/-- Witness for C1 at count 1: `access` succeeds, yielding count 0, and the
guard's drop restores count 1; likewise for `try_access`. -/
theorem access_release_round_trip_witness :
    (SemaphoreGuard.drop (SemaphoreGuard.new ⟨[47], [47]⟩) 0).1 = 1 ∧
    (SemaphoreGuard.drop (SemaphoreGuard.new ⟨[47], [47]⟩) 0).1 = 1 :=
  ⟨(access_release_round_trip ⟨[47], [47]⟩ 1 (by decide)).1 false 0
      (SemaphoreGuard.new ⟨[47], [47]⟩) [Ev.semWait] rfl,
   (access_release_round_trip ⟨[47], [47]⟩ 1 (by decide)).2 0
      (SemaphoreGuard.new ⟨[47], [47]⟩) [Ev.semTrywait] rfl⟩

/-- C2: a guard is only produced by a success path whose trace holds exactly
one decrement (`sem_wait` resp. `sem_trywait`) and no release, so one
acquisition is unmatched while the guard lives; and the guard's drop
unconditionally performs exactly one release (`sem_post`), for every count,
keeping only the resulting state and discarding the release's result. -/
theorem guard_exactly_one_release (s : Semaphore) (c : Nat) :
    (∀ intr c' g ev, s.access c intr = some (c', Except.ok g, ev) →
      ev.count Ev.semWait = 1 ∧ ev.count Ev.semPost = 0) ∧
    (∀ c' g ev, s.try_access c = (c', Except.ok g, ev) →
      ev.count Ev.semTrywait = 1 ∧ ev.count Ev.semPost = 0) ∧
    (∀ g : SemaphoreGuard, ((g.drop c).2).count Ev.semPost = 1 ∧
      (g.drop c).1 = (g.sem.release c).1) := by
  refine ⟨?_, ?_, ?_⟩
  · intro intr c' g ev h
    rw [access_ok_iff] at h
    rw [h.2.2.2.2]
    exact ⟨by decide, by decide⟩
  · intro c' g ev h
    rw [try_access_ok_iff] at h
    rw [h.2.2.2]
    exact ⟨by decide, by decide⟩
  · intro g
    unfold SemaphoreGuard.drop Semaphore.release sem_post capture_io_error
    by_cases hc : SEM_VALUE_MAX ≤ c <;> simp [hc]

/-- Witness for C2 at count 1 with a concrete semaphore and guard. -/
theorem guard_exactly_one_release_witness :
    ([Ev.semWait].count Ev.semWait = 1 ∧ [Ev.semWait].count Ev.semPost = 0) ∧
    ((SemaphoreGuard.drop (SemaphoreGuard.new ⟨[47], [47]⟩) 1).2).count
        Ev.semPost = 1 :=
  ⟨(guard_exactly_one_release ⟨[47], [47]⟩ 1).1 false 0
      (SemaphoreGuard.new ⟨[47], [47]⟩) [Ev.semWait] rfl,
   ((guard_exactly_one_release ⟨[47], [47]⟩ 1).2.2
      (SemaphoreGuard.new ⟨[47], [47]⟩)).1⟩

/-- C5: `access` is exactly `acquire` followed by wrapping in a guard: an
`acquire` error is returned unchanged with no guard and no release in the
trace; an `acquire` success yields a guard referencing the same semaphore,
with state and trace unchanged; a blocked `acquire` means a blocked
`access`. -/
theorem access_is_acquire_then_guard (s : Semaphore) (c : Nat) (intr : Bool) :
    (∀ c' e ev, s.acquire c intr = some (c', Except.error e, ev) →
      s.access c intr = some (c', Except.error e, ev) ∧
        ev.count Ev.semPost = 0) ∧
    (∀ c' ev, s.acquire c intr = some (c', Except.ok (), ev) →
      s.access c intr = some (c', Except.ok (SemaphoreGuard.new s), ev) ∧
        (SemaphoreGuard.new s).sem = s) ∧
    (s.acquire c intr = none → s.access c intr = none) := by
  have hev : ∀ c' r ev, s.acquire c intr = some (c', r, ev) →
      ev = [Ev.semWait] := by
    intro c' r ev h
    unfold Semaphore.acquire sem_wait at h
    by_cases hi : intr <;> by_cases hc : c = 0 <;>
      simp [hi, hc] at h <;> exact h.2.2.symm
  refine ⟨?_, ?_, ?_⟩
  · intro c' e ev h
    refine ⟨?_, ?_⟩
    · unfold Semaphore.access
      rw [h]
      rfl
    · rw [hev c' (Except.error e) ev h]
      decide
  · intro c' ev h
    refine ⟨?_, rfl⟩
    unfold Semaphore.access
    rw [h]
    rfl
  · intro h
    unfold Semaphore.access
    rw [h]
    rfl

/-- Witness for C5: at count 1, `acquire` succeeds with state 0 and `access`
returns the guard over the same semaphore; at count 0 with an interrupting
signal, `acquire` fails and `access` forwards the same error. -/
theorem access_is_acquire_then_guard_witness :
    (Semaphore.access ⟨[47], [47]⟩ 1 false
        = some (0, Except.ok (SemaphoreGuard.new ⟨[47], [47]⟩), [Ev.semWait]) ∧
      (SemaphoreGuard.new ⟨[47], [47]⟩).sem = (⟨[47], [47]⟩ : Semaphore)) ∧
    (Semaphore.access ⟨[47], [47]⟩ 0 true
        = some (0, Except.error ErrorKind.interrupted, [Ev.semWait]) ∧
      [Ev.semWait].count Ev.semPost = 0) :=
  ⟨(access_is_acquire_then_guard ⟨[47], [47]⟩ 1 false).2.1 0 [Ev.semWait] rfl,
   (access_is_acquire_then_guard ⟨[47], [47]⟩ 0 true).1 0
      ErrorKind.interrupted [Ev.semWait] rfl⟩

/-- C8: for a valid name, `create` has exclusive-creation semantics: when
the name already exists it fails with the OS already-exists error (namespace
unchanged, so the existing count is kept regardless of the requested
capacity) while `open` succeeds on the same state; when the name does not
exist, `create` and `open` produce the identical namespace and result. -/
theorem create_exclusive_vs_open (os : OsNs) (name : List UInt8)
    (capacity : Nat) (hnull : (0 : UInt8) ∉ name) :
    (∀ v, os.lookup name = some v →
      Semaphore.create os name capacity
        = (os, Except.error ErrorKind.alreadyExists,
            [Ev.semOpen ⟨name, O_CREAT ||| O_EXCL, 0o644, capacity⟩]) ∧
      Semaphore.open_ os name capacity
        = (os, Except.ok ⟨name, name⟩,
            [Ev.semOpen ⟨name, O_CREAT, 0o644, capacity⟩])) ∧
    (os.lookup name = none →
      (Semaphore.create os name capacity).1
          = (Semaphore.open_ os name capacity).1 ∧
      (Semaphore.create os name capacity).2.1
          = (Semaphore.open_ os name capacity).2.1) := by
  have hor : (64 ||| 128 : Nat) = 192 := by decide
  have ha : (64 &&& 64 : Nat) = 64 := by decide
  have hb : (64 &&& 128 : Nat) = 0 := by decide
  have hc : (192 &&& 64 : Nat) = 64 := by decide
  have hd : (192 &&& 128 : Nat) = 128 := by decide
  constructor
  · intro v hv
    constructor <;>
      simp [Semaphore.create, Semaphore.open_, Semaphore.open_with_oflag,
        cstring_new, hnull, sem_open, hv, O_CREAT, O_EXCL, errnoKind,
        EEXIST, EAGAIN, ENOENT, EINTR, EINVAL, hor, ha, hb, hc, hd]
  · intro hv
    by_cases hcap : SEM_VALUE_MAX < capacity <;>
      simp [Semaphore.create, Semaphore.open_, Semaphore.open_with_oflag,
        cstring_new, hnull, sem_open, hv, hcap, O_CREAT, O_EXCL, errnoKind,
        EEXIST, EAGAIN, ENOENT, EINTR, EINVAL, hor, ha, hb, hc, hd]

/-- Witness for C8: with `"/"` mapped to count 5, `create` fails with
already-exists and `open` succeeds leaving the count at 5; on the empty
namespace both agree. -/
theorem create_exclusive_vs_open_witness :
    (Semaphore.create [([47], 5)] [47] 3
        = ([([47], 5)], Except.error ErrorKind.alreadyExists,
            [Ev.semOpen ⟨[47], O_CREAT ||| O_EXCL, 0o644, 3⟩]) ∧
      Semaphore.open_ [([47], 5)] [47] 3
        = ([([47], 5)], Except.ok ⟨[47], [47]⟩,
            [Ev.semOpen ⟨[47], O_CREAT, 0o644, 3⟩])) ∧
    ((Semaphore.create [] [47] 3).1 = (Semaphore.open_ [] [47] 3).1 ∧
      (Semaphore.create [] [47] 3).2.1 = (Semaphore.open_ [] [47] 3).2.1) :=
  ⟨(create_exclusive_vs_open [([47], 5)] [47] 3 (by decide)).1 5 rfl,
   (create_exclusive_vs_open [] [47] 3 (by decide)).2 rfl⟩

/-- C10: every `sem_open` call that `open` or `create` issues to the OS
carries the fixed permission mode `0o644`, for every namespace, name and
initial count. -/
theorem open_create_fixed_mode_0o644 (os : OsNs) (name : List UInt8)
    (capacity : Nat) :
    (∀ call, Ev.semOpen call ∈ (Semaphore.open_ os name capacity).2.2 →
      call.mode = 0o644) ∧
    (∀ call, Ev.semOpen call ∈ (Semaphore.create os name capacity).2.2 →
      call.mode = 0o644) := by
  constructor <;> intro call h
  · rcases open_with_oflag_trace os name capacity O_CREAT with ht | ht <;>
      rw [Semaphore.open_, ht] at h <;> simp at h
    rw [h]
  · rcases open_with_oflag_trace os name capacity (O_CREAT ||| O_EXCL)
        with ht | ht <;>
      rw [Semaphore.create, ht] at h <;> simp at h
    rw [h]

/-- Witness for C10: the one call issued by `open` (resp. `create`) of `"/"`
on the empty namespace has mode `0o644`. -/
theorem open_create_fixed_mode_0o644_witness :
    SemOpenCall.mode ⟨[47], O_CREAT, 0o644, 2⟩ = 0o644 ∧
    SemOpenCall.mode ⟨[47], O_CREAT ||| O_EXCL, 0o644, 2⟩ = 0o644 :=
  ⟨(open_create_fixed_mode_0o644 [] [47] 2).1 ⟨[47], O_CREAT, 0o644, 2⟩
      (by decide),
   (open_create_fixed_mode_0o644 [] [47] 2).2 ⟨[47], O_CREAT ||| O_EXCL, 0o644, 2⟩
      (by decide)⟩

end NamedSemaphore
